import Mathlib

/-!
Verification development for the sample-golang lead-intake repository.

The repository contains two historical revisions of a webhook-driven
submission pipeline (a monolithic `main.go` revision with
`processSubmission`, and a refactored `pkg/` revision with
`ProcessLandingSubmission`), plus an orthogonal OTP verification variant.
This file shallowly embeds the functions those claims are about:

* `hashString` / `HashString` — SHA-256 of the raw phone string, hex lowercase;
* the submission pipeline over an explicit record-store state and an
  environment of remote-call oracles, producing a trace of facade calls;
* the delayed follow-up task;
* the HTTP submission handler's validation branches;
* the `/send-otp` rate-limiting handler and the `VerifyCode` service.
-/

/-! ## SHA-256 (shallow embedding of Go crypto/sha256 over byte lists) -/

/-- Right rotation of a 32-bit word represented as a `Nat` below `2^32`. -/
def rotr32 (n x : Nat) : Nat :=
  ((x >>> n) ||| ((x <<< (32 - n)) % 4294967296))

/-- The eight initial SHA-256 hash words (FIPS 180-4). -/
structure Sha256State where
  h0 : Nat
  h1 : Nat
  h2 : Nat
  h3 : Nat
  h4 : Nat
  h5 : Nat
  h6 : Nat
  h7 : Nat

/-- Working variables of the SHA-256 compression loop. -/
structure Sha256Work where
  a : Nat
  b : Nat
  c : Nat
  d : Nat
  e : Nat
  f : Nat
  g : Nat
  h : Nat

/-- SHA-256 round constants, in decimal. -/
def sha256K : List Nat :=
  [1116352408, 1899447441, 3049323471, 3921009573, 961987163, 1508970993,
   2453635748, 2870763221, 3624381080, 310598401, 607225278, 1426881987,
   1925078388, 2162078206, 2614888103, 3248222580, 3835390401, 4022224774,
   264347078, 604807628, 770255983, 1249150122, 1555081692, 1996064986,
   2554220882, 2821834349, 2952996808, 3210313671, 3336571891, 3584528711,
   113926993, 338241895, 666307205, 773529912, 1294757372, 1396182291,
   1695183700, 1986661051, 2177026350, 2456956037, 2730485921, 2820302411,
   3259730800, 3345764771, 3516065817, 3600352804, 4094571909, 275423344,
   430227734, 506948616, 659060556, 883997877, 958139571, 1322822218,
   1537002063, 1747873779, 1955562222, 2024104815, 2227730452, 2361852424,
   2428436474, 2756734187, 3204031479, 3329325298]

/-- Initial SHA-256 state, in decimal. -/
def sha256Init : Sha256State :=
  ⟨1779033703, 3144134277, 1013904242, 2773480762,
   1359893119, 2600822924, 528734635, 1541459225⟩

/-- The eight big-endian bytes of the 64-bit message bit length. -/
def lengthBytesBE (bitLen : Nat) : List Nat :=
  [(bitLen >>> 56) % 256, (bitLen >>> 48) % 256, (bitLen >>> 40) % 256, (bitLen >>> 32) % 256,
   (bitLen >>> 24) % 256, (bitLen >>> 16) % 256, (bitLen >>> 8) % 256, bitLen % 256]

/-- SHA-256 padding: append 0x80, zeros to 56 mod 64, then the bit length. -/
def sha256Pad (msg : List Nat) : List Nat :=
  let len := msg.length
  msg ++ (128 :: List.replicate ((119 - len % 64) % 64) 0) ++ lengthBytesBE (len * 8)

/-- Group bytes four at a time into big-endian 32-bit words. -/
def bytesToWordsBE : List Nat → List Nat
  | b0 :: b1 :: b2 :: b3 :: rest =>
    (((b0 * 256 + b1) * 256 + b2) * 256 + b3) :: bytesToWordsBE rest
  | _ => []

/-- Split a byte list into 64-byte blocks; the fuel is an upper bound on the
number of blocks (the list's length suffices). -/
def chunksOf64 : Nat → List Nat → List (List Nat)
  | 0, _ => []
  | _, [] => []
  | fuel + 1, bs => bs.take 64 :: chunksOf64 fuel (bs.drop 64)

/-- Extend the 16 block words to the 64-entry message schedule. -/
def sha256Schedule (block : List Nat) : List Nat :=
  let w0 := (bytesToWordsBE block).toArray
  let w := (List.range 48).foldl (fun (w : Array Nat) j =>
    let x15 := w.getD (j + 1) 0
    let x2 := w.getD (j + 14) 0
    let x16 := w.getD j 0
    let x7 := w.getD (j + 9) 0
    let s0 := (rotr32 7 x15) ^^^ (rotr32 18 x15) ^^^ (x15 >>> 3)
    let s1 := (rotr32 17 x2) ^^^ (rotr32 19 x2) ^^^ (x2 >>> 10)
    w.push ((x16 + s0 + x7 + s1) % 4294967296)) w0
  w.toList

/-- One SHA-256 compression round, taking the pair (round constant, schedule word). -/
def sha256Round (st : Sha256Work) (kw : Nat × Nat) : Sha256Work :=
  let s1 := (rotr32 6 st.e) ^^^ (rotr32 11 st.e) ^^^ (rotr32 25 st.e)
  let ch := (st.e &&& st.f) ^^^ ((st.e ^^^ 4294967295) &&& st.g)
  let temp1 := (st.h + s1 + ch + kw.1 + kw.2) % 4294967296
  let s0 := (rotr32 2 st.a) ^^^ (rotr32 13 st.a) ^^^ (rotr32 22 st.a)
  let maj := (st.a &&& st.b) ^^^ (st.a &&& st.c) ^^^ (st.b &&& st.c)
  let temp2 := (s0 + maj) % 4294967296
  ⟨(temp1 + temp2) % 4294967296, st.a, st.b, st.c,
   (st.d + temp1) % 4294967296, st.e, st.f, st.g⟩

/-- Compress one 64-byte block into the running state. -/
def sha256Compress (st : Sha256State) (block : List Nat) : Sha256State :=
  let w := sha256Schedule block
  let r := (sha256K.zip w).foldl sha256Round
    ⟨st.h0, st.h1, st.h2, st.h3, st.h4, st.h5, st.h6, st.h7⟩
  ⟨(st.h0 + r.a) % 4294967296, (st.h1 + r.b) % 4294967296,
   (st.h2 + r.c) % 4294967296, (st.h3 + r.d) % 4294967296,
   (st.h4 + r.e) % 4294967296, (st.h5 + r.f) % 4294967296,
   (st.h6 + r.g) % 4294967296, (st.h7 + r.h) % 4294967296⟩

/-- The four big-endian bytes of a 32-bit word. -/
def wordToBytesBE (w : Nat) : List Nat :=
  [(w >>> 24) % 256, (w >>> 16) % 256, (w >>> 8) % 256, w % 256]

/-- The 32 digest bytes of a final SHA-256 state. -/
def stateToBytes (st : Sha256State) : List Nat :=
  wordToBytesBE st.h0 ++ wordToBytesBE st.h1 ++ wordToBytesBE st.h2 ++ wordToBytesBE st.h3 ++
  wordToBytesBE st.h4 ++ wordToBytesBE st.h5 ++ wordToBytesBE st.h6 ++ wordToBytesBE st.h7

/-- SHA-256 digest of a byte list (bytes as `Nat` below 256). -/
def sha256Bytes (msg : List Nat) : List Nat :=
  let padded := sha256Pad msg
  stateToBytes ((chunksOf64 padded.length padded).foldl sha256Compress sha256Init)

/-! ## Hex encoding (Go encoding/hex, lowercase) -/

/-- Lowercase hex digit for a value below 16, as in Go's `encoding/hex`. -/
def hexDigitLower (n : Nat) : Char :=
  if n < 10 then Char.ofNat (48 + n) else Char.ofNat (87 + n)

/-- The two lowercase hex characters of one byte. -/
def byteToHex (b : Nat) : List Char :=
  [hexDigitLower (b / 16), hexDigitLower (b % 16)]

/-- Lowercase hex encoding of a byte list. -/
def hexEncodeLower (bs : List Nat) : String :=
  String.mk (bs.flatMap byteToHex)

/-- The UTF-8 bytes of a string, as `Nat`s — Go's `[]byte(input)`. -/
def strBytes (s : String) : List Nat :=
  (s.data.flatMap String.utf8EncodeChar).map UInt8.toNat

/-- Embeds `hashString` from the monolithic revision (part_000 lines 74–81):
SHA-256 of the raw input string, hex-encoded lowercase. -/
def hashString (input : String) : String :=
  hexEncodeLower (sha256Bytes (strBytes input))

/-- Embeds `utils.HashString` (part_006 lines 9–16), textually identical to
`hashString` from the monolithic revision. -/
def HashString (input : String) : String :=
  hexEncodeLower (sha256Bytes (strBytes input))

/-- FIPS 180-4 test vector pinning the SHA-256 translation: digest of "abc". -/
theorem sha256_test_vector_abc :
    hashString "abc" = "ba7816bf8f01cfea414140de5dae2223b00361a396177a9cb410ff61f20015ad" := by
  decide

/-- Test vector for the empty string. -/
theorem sha256_test_vector_empty :
    hashString "" = "e3b0c44298fc1c149afbf4c8996fb92427ae41e4649b934ca495991b7852b855" := by
  decide

/-! ## Shape and injectivity of hex encoding -/

lemma hexDigitLower_inj : ∀ a < 16, ∀ b < 16, hexDigitLower a = hexDigitLower b → a = b := by
  decide

lemma hexDigitLower_range :
    ∀ n < 16, (48 ≤ (hexDigitLower n).toNat ∧ (hexDigitLower n).toNat ≤ 57)
      ∨ (97 ≤ (hexDigitLower n).toNat ∧ (hexDigitLower n).toNat ≤ 102) := by
  decide

lemma byteToHex_inj {a b : Nat} (ha : a < 256) (hb : b < 256)
    (h : byteToHex a = byteToHex b) : a = b := by
  simp only [byteToHex, List.cons.injEq, and_true] at h
  obtain ⟨h1, h2⟩ := h
  have e1 := hexDigitLower_inj (a / 16) (by omega) (b / 16) (by omega) h1
  have e2 := hexDigitLower_inj (a % 16) (by omega) (b % 16) (by omega) h2
  omega

lemma flatMap_byteToHex_inj :
    ∀ xs ys : List Nat, (∀ x ∈ xs, x < 256) → (∀ y ∈ ys, y < 256) →
      xs.flatMap byteToHex = ys.flatMap byteToHex → xs = ys := by
  intro xs
  induction xs with
  | nil =>
    intro ys _ _ h
    cases ys with
    | nil => rfl
    | cons b bs => simp [byteToHex] at h
  | cons a as ih =>
    intro ys hx hy h
    cases ys with
    | nil => simp [byteToHex] at h
    | cons b bs =>
      simp only [List.flatMap_cons, byteToHex, List.cons_append, List.nil_append,
        List.cons.injEq] at h
      obtain ⟨h1, h2, h3⟩ := h
      have hab : a = b := by
        have e1 := hexDigitLower_inj (a / 16) (by have := hx a (by simp); omega)
          (b / 16) (by have := hy b (by simp); omega) h1
        have e2 := hexDigitLower_inj (a % 16) (by omega) (b % 16) (by omega) h2
        have := hx a (by simp)
        have := hy b (by simp)
        omega
      have tail : as = bs :=
        ih bs (fun x hxm => hx x (by simp [hxm])) (fun y hym => hy y (by simp [hym])) h3
      rw [hab, tail]

lemma flatMap_byteToHex_length :
    ∀ bs : List Nat, (bs.flatMap byteToHex).length = 2 * bs.length := by
  intro bs
  induction bs with
  | nil => rfl
  | cons a as ih => simp [byteToHex, ih] ; omega

lemma wordToBytesBE_lt (w : Nat) : ∀ x ∈ wordToBytesBE w, x < 256 := by
  intro x hx
  simp only [wordToBytesBE, List.mem_cons, List.not_mem_nil, or_false] at hx
  rcases hx with rfl | rfl | rfl | rfl <;> omega

lemma stateToBytes_lt (st : Sha256State) : ∀ x ∈ stateToBytes st, x < 256 := by
  intro x hx
  simp only [stateToBytes, List.mem_append, or_assoc] at hx
  rcases hx with h | h | h | h | h | h | h | h <;> exact wordToBytesBE_lt _ x h

lemma sha256Bytes_lt (msg : List Nat) : ∀ x ∈ sha256Bytes msg, x < 256 :=
  fun x hx => stateToBytes_lt _ x hx

lemma stateToBytes_length (st : Sha256State) : (stateToBytes st).length = 32 := by
  simp [stateToBytes, wordToBytesBE]

lemma sha256Bytes_length (msg : List Nat) : (sha256Bytes msg).length = 32 :=
  stateToBytes_length _

/-! ## Data model of the submission pipeline -/

/-- Embeds `models.LandingFormData` (part_002) and the field-identical
`RawFormData` of the monolithic revision (part_000 lines 33–37). -/
structure LandingFormData where
  First : String
  Last : String
  Phone : String
deriving DecidableEq

/-- Embeds the `Config` struct (part_000 lines 47–56 and pkg/config). Only the
two table identifiers are consulted by the pipeline. -/
structure Config where
  TextMagicAPIKey : String
  TextMagicUsername : String
  AirtableAPIKey : String
  AirtableBaseID : String
  AirtablePartialTable : String
  AirtableR2ETable : String
  ShortIOAPIKey : String
  ShortIODomain : String
deriving DecidableEq

/-- The record map written to the Partial table (part_001 lines 82–88, part_000
lines 648–654): first, last, phone, hash, and the contact id as an integer. -/
structure PartialRecordFields where
  first : String
  last : String
  phone : String
  hash : String
  contactID : Int
deriving DecidableEq

/-- The data captured by the deferred follow-up goroutine. -/
structure FollowupTask where
  phoneHash : String
  firstName : String
  lastName : String
  contactID : String
deriving DecidableEq

/-- One outbound facade call made by the pipeline or the follow-up task, in
program order. `sleep` records the fixed `time.Sleep` delay in minutes. -/
inductive FacadeEvent where
  | getOrCreateContact (phone firstName lastName : String)
  | recordExists (table hash : String)
  | createRecord (table : String) (fields : PartialRecordFields)
  | scheduleTask (task : FollowupTask)
  | sleep (minutes : Nat)
  | createShortLink (url : String)
  | sendMessage (contactID text : String)
deriving DecidableEq

/-- The remote record store as explicit state: the rows of each table, each
carrying its fields. `RecordExists` filters on the `hash` field. -/
structure RecordStore where
  rows : List (String × PartialRecordFields)
deriving DecidableEq

/-- Existence check semantics of `airtable.RecordExists`: some row of the named
table has its `hash` field equal to the queried hash. -/
def storeExists (st : RecordStore) (table hash : String) : Bool :=
  st.rows.any (fun r => r.1 == table && r.2.hash == hash)

/-- Write semantics of `airtable.CreateRecord`: append a row to the table. -/
def storeCreate (st : RecordStore) (table : String) (fields : PartialRecordFields) : RecordStore :=
  ⟨st.rows ++ [(table, fields)]⟩

/-- Environment of remote-call outcomes: the contact-directory reply, injected
failures for the record-store calls, and the shortener / messaging replies. -/
structure Env where
  contact : String → String → String → Except String String
  existsFailure : String → String → Option String
  createFailure : String → PartialRecordFields → Option String
  shorten : String → Except String String
  send : String → String → Option String

/-- `RecordExists` against the store state, with environment-injected failures. -/
def envRecordExists (env : Env) (st : RecordStore) (table hash : String) : Except String Bool :=
  match env.existsFailure table hash with
  | some e => Except.error e
  | none => Except.ok (storeExists st table hash)

/-- Embeds Go `strconv.ParseInt(s, 10, 64)`: optional sign, mandatory decimal
digits, 64-bit signed range check. -/
def parseInt64 (s : String) : Except String Int :=
  let signed : Bool × List Char :=
    match s.data with
    | '-' :: rest => (true, rest)
    | '+' :: rest => (false, rest)
    | cs => (false, cs)
  let ds := signed.2
  if ds.isEmpty then Except.error "invalid syntax"
  else if ds.all (fun c => 48 ≤ c.toNat && c.toNat ≤ 57) then
    let n : Nat := ds.foldl (fun acc d => acc * 10 + (d.toNat - 48)) 0
    if signed.1 then
      if n ≤ 9223372036854775808 then Except.ok (-(n : Int))
      else Except.error "value out of range"
    else
      if n ≤ 9223372036854775807 then Except.ok (n : Int)
      else Except.error "value out of range"
  else Except.error "invalid syntax"

/-! ## The two pipeline revisions -/

/-- Embeds `ProcessLandingSubmission` (part_001 lines 46–105): hash the phone,
resolve the contact, check the Partial and R2E tables, and on double absence
parse the contact id, create the Partial record, and schedule the follow-up.
Returns the resulting store and the trace of facade calls. -/
def ProcessLandingSubmission (env : Env) (cfg : Config) (data : LandingFormData)
    (st : RecordStore) : RecordStore × List FacadeEvent :=
  let phoneHash := HashString data.Phone
  let ev0 := FacadeEvent.getOrCreateContact data.Phone data.First data.Last
  match env.contact data.Phone data.First data.Last with
  | Except.error _ => (st, [ev0])
  | Except.ok textMagicContactID =>
    let ev1 := FacadeEvent.recordExists cfg.AirtablePartialTable phoneHash
    match envRecordExists env st cfg.AirtablePartialTable phoneHash with
    | Except.error _ => (st, [ev0, ev1])
    | Except.ok existsInPartialTbl =>
      let ev2 := FacadeEvent.recordExists cfg.AirtableR2ETable phoneHash
      match envRecordExists env st cfg.AirtableR2ETable phoneHash with
      | Except.error _ => (st, [ev0, ev1, ev2])
      | Except.ok existsInR2E =>
        if !existsInPartialTbl && !existsInR2E then
          match parseInt64 textMagicContactID with
          | Except.error _ => (st, [ev0, ev1, ev2])
          | Except.ok contactIDInt =>
            let record : PartialRecordFields :=
              ⟨data.First, data.Last, data.Phone, phoneHash, contactIDInt⟩
            let ev3 := FacadeEvent.createRecord cfg.AirtablePartialTable record
            match env.createFailure cfg.AirtablePartialTable record with
            | some _ => (st, [ev0, ev1, ev2, ev3])
            | none =>
              (storeCreate st cfg.AirtablePartialTable record,
               [ev0, ev1, ev2, ev3,
                FacadeEvent.scheduleTask ⟨phoneHash, data.First, data.Last, textMagicContactID⟩])
        else (st, [ev0, ev1, ev2])

/-- Embeds `processSubmission` of the monolithic revision (part_000 lines
619–703): identical to `ProcessLandingSubmission` except that only the
Partial table is checked before writing — there is no R2E existence check at
submission time. -/
def processSubmission (env : Env) (cfg : Config) (data : LandingFormData)
    (st : RecordStore) : RecordStore × List FacadeEvent :=
  let phoneHash := hashString data.Phone
  let ev0 := FacadeEvent.getOrCreateContact data.Phone data.First data.Last
  match env.contact data.Phone data.First data.Last with
  | Except.error _ => (st, [ev0])
  | Except.ok textMagicContactID =>
    let ev1 := FacadeEvent.recordExists cfg.AirtablePartialTable phoneHash
    match envRecordExists env st cfg.AirtablePartialTable phoneHash with
    | Except.error _ => (st, [ev0, ev1])
    | Except.ok existsFlag =>
      if !existsFlag then
        match parseInt64 textMagicContactID with
        | Except.error _ => (st, [ev0, ev1])
        | Except.ok contactIDInt =>
          let record : PartialRecordFields :=
            ⟨data.First, data.Last, data.Phone, phoneHash, contactIDInt⟩
          let ev2 := FacadeEvent.createRecord cfg.AirtablePartialTable record
          match env.createFailure cfg.AirtablePartialTable record with
          | some _ => (st, [ev0, ev1, ev2])
          | none =>
            (storeCreate st cfg.AirtablePartialTable record,
             [ev0, ev1, ev2,
              FacadeEvent.scheduleTask ⟨phoneHash, data.First, data.Last, textMagicContactID⟩])
      else (st, [ev0, ev1])

/-! ## URL encoding (Go net/url) and the follow-up task -/

/-- Uppercase hex digit, as used by Go's percent-encoding. -/
def hexDigitUpper (n : Nat) : Char :=
  if n < 10 then Char.ofNat (48 + n) else Char.ofNat (55 + n)

/-- Bytes Go's `url.QueryEscape` leaves unescaped: ASCII alphanumerics and
`-`, `.`, `_`, `~`. -/
def isUnreservedQueryByte (b : Nat) : Bool :=
  (65 ≤ b && b ≤ 90) || (97 ≤ b && b ≤ 122) || (48 ≤ b && b ≤ 57) ||
    b == 45 || b == 46 || b == 95 || b == 126

/-- Escape one UTF-8 byte as `url.QueryEscape` does: unreserved bytes pass
through, space becomes `+`, everything else becomes `%XX`. -/
def queryEscapeByte (b : Nat) : List Char :=
  if isUnreservedQueryByte b then [Char.ofNat b]
  else if b == 32 then ['+']
  else ['%', hexDigitUpper (b / 16), hexDigitUpper (b % 16)]

/-- Embeds Go `url.QueryEscape`. -/
def queryEscape (s : String) : String :=
  String.mk ((strBytes s).flatMap queryEscapeByte)

/-- Lexicographic order on character lists, as `sort.Strings` compares keys. -/
def charListLt : List Char → List Char → Bool
  | [], [] => false
  | [], _ :: _ => true
  | _ :: _, [] => false
  | a :: as, b :: bs => a.toNat < b.toNat || (a.toNat == b.toNat && charListLt as bs)

/-- Lexicographic string comparison used when sorting query keys. -/
def stringLtB (a b : String) : Bool := charListLt a.data b.data

/-- Insert a key-value pair into a key-sorted list (ascending, as
`sort.Strings` orders the keys inside `url.Values.Encode`). -/
def insertSorted (p : String × String) : List (String × String) → List (String × String)
  | [] => [p]
  | q :: rest => if stringLtB q.1 p.1 then q :: insertSorted p rest else p :: q :: rest

/-- Embeds Go `url.Values.Encode`: keys sorted ascending, each pair rendered
`escape(k)=escape(v)`, joined with `&`. -/
def urlValuesEncode (vals : List (String × String)) : String :=
  match (vals.foldr insertSorted []).map
      (fun kv => queryEscape kv.1 ++ "=" ++ queryEscape kv.2) with
  | [] => ""
  | x :: rest => rest.foldl (fun acc y => acc ++ "&" ++ y) x

/-- The target URL the follow-up builds: the fixed downstream form base with
the encoded query parameters `first`, `last`, `id` (part_001 lines 122–127). -/
def followupTargetURL (firstName lastName phoneHash : String) : String :=
  "https://forms.democracyOS.com/t/bj1RaePxL2us?" ++
    urlValuesEncode [("first", firstName), ("last", lastName), ("id", phoneHash)]

/-- The fixed-template reminder message (part_001 line 135). -/
def followupMessage (firstName shortLink : String) : String :=
  "Hello " ++ firstName ++ "! Finish signing up for DemocracyOS here: " ++ shortLink

/-- Embeds `scheduleFollowup` (part_001 lines 108–145) and the textually
identical deferred goroutine inside `processSubmission` (part_000 lines
662–699): sleep 15 minutes, re-check the R2E table, and if the fingerprint is
still absent mint a short link for the downstream form URL and send the
reminder SMS. `st` is the record-store state at firing time. -/
def scheduleFollowup (env : Env) (cfg : Config) (st : RecordStore)
    (phoneHash firstName lastName contactID : String) : List FacadeEvent :=
  FacadeEvent.sleep 15 ::
  FacadeEvent.recordExists cfg.AirtableR2ETable phoneHash ::
  (match envRecordExists env st cfg.AirtableR2ETable phoneHash with
   | Except.error _ => []
   | Except.ok existsInR2E =>
     if !existsInR2E then
       let targetURL := followupTargetURL firstName lastName phoneHash
       match env.shorten targetURL with
       | Except.error _ => [FacadeEvent.createShortLink targetURL]
       | Except.ok shortLink =>
         [FacadeEvent.createShortLink targetURL,
          FacadeEvent.sendMessage contactID (followupMessage firstName shortLink)]
     else [])

/-! ## Trace observations -/

def isCreateCall : FacadeEvent → Bool
  | FacadeEvent.createRecord _ _ => true
  | _ => false

def isScheduleCall : FacadeEvent → Bool
  | FacadeEvent.scheduleTask _ => true
  | _ => false

def isShortLinkCall : FacadeEvent → Bool
  | FacadeEvent.createShortLink _ => true
  | _ => false

def isSendCall : FacadeEvent → Bool
  | FacadeEvent.sendMessage _ _ => true
  | _ => false

/-- Number of `CreateRecord` calls in a trace. -/
def countCreateCalls (evs : List FacadeEvent) : Nat := (evs.filter isCreateCall).length

/-- Number of follow-up tasks scheduled in a trace. -/
def countScheduleCalls (evs : List FacadeEvent) : Nat := (evs.filter isScheduleCall).length

/-- Number of `CreateShortLink` calls in a trace. -/
def countShortLinkCalls (evs : List FacadeEvent) : Nat := (evs.filter isShortLinkCall).length

/-- Number of `SendMessage` calls in a trace. -/
def countSendCalls (evs : List FacadeEvent) : Nat := (evs.filter isSendCall).length

/-- Claim C6: the fingerprint is pure and deterministic — `HashString` (and the
identical `hashString`) is exactly the lowercase hex encoding of the SHA-256
digest of the raw UTF-8 bytes of its input, with no normalization applied; its
output is 64 characters drawn from the lowercase hex alphabet; and two strings
share a fingerprint exactly when their SHA-256 digests collide, so textually
different phone strings hash to different fingerprints unless SHA-256 collides. -/
theorem C6_fingerprint_sha256_hex (p q : String) :
    HashString p = hexEncodeLower (sha256Bytes (strBytes p))
    ∧ hashString p = HashString p
    ∧ (HashString p).length = 64
    ∧ (∀ c ∈ (HashString p).data,
        (48 ≤ c.toNat ∧ c.toNat ≤ 57) ∨ (97 ≤ c.toNat ∧ c.toNat ≤ 102))
    ∧ (HashString p = HashString q ↔ sha256Bytes (strBytes p) = sha256Bytes (strBytes q)) := by
  refine ⟨rfl, rfl, ?_, ?_, ?_⟩
  · show (hexEncodeLower (sha256Bytes (strBytes p))).length = 64
    have : (hexEncodeLower (sha256Bytes (strBytes p))).length
        = ((sha256Bytes (strBytes p)).flatMap byteToHex).length := rfl
    rw [this, flatMap_byteToHex_length, sha256Bytes_length]
  · intro c hc
    have hc' : c ∈ (sha256Bytes (strBytes p)).flatMap byteToHex := hc
    rw [List.mem_flatMap] at hc'
    obtain ⟨b, hb, hcb⟩ := hc'
    have hblt : b < 256 := sha256Bytes_lt _ b hb
    simp only [byteToHex, List.mem_cons, List.not_mem_nil, or_false] at hcb
    rcases hcb with rfl | rfl
    · exact hexDigitLower_range (b / 16) (by omega)
    · exact hexDigitLower_range (b % 16) (by omega)
  · constructor
    · intro h
      have hdata : (sha256Bytes (strBytes p)).flatMap byteToHex
          = (sha256Bytes (strBytes q)).flatMap byteToHex := congrArg String.data h
      exact flatMap_byteToHex_inj _ _ (sha256Bytes_lt _) (sha256Bytes_lt _) hdata
    · intro h
      show hexEncodeLower (sha256Bytes (strBytes p)) = hexEncodeLower (sha256Bytes (strBytes q))
      rw [h]

/-! ## Concrete fixtures used by counterexamples and witnesses -/

/-- A concrete configuration naming the two tables. -/
def cfgDemo : Config :=
  ⟨"tmKey", "tmUser", "atKey", "atBase", "PartialTbl", "R2E", "sioKey", "sioDomain"⟩

/-- An environment in which every remote call succeeds and the contact
directory resolves every phone to contact id "123". -/
def envHappy : Env :=
  { contact := fun _ _ _ => Except.ok "123"
    existsFailure := fun _ _ => none
    createFailure := fun _ _ => none
    shorten := fun _ => Except.ok "https://sho.rt/x"
    send := fun _ _ => none }

/-- The end-to-end scenario input from the specification. -/
def dataAda : LandingFormData := ⟨"Ada", "Lovelace", "802-555-0100"⟩

/-- A second concrete input with a different phone. -/
def dataBob : LandingFormData := ⟨"Bob", "Hope", "802-555-0199"⟩

/-- A store whose only row carries Ada's fingerprint, in the R2E table. -/
def storeR2EAda : RecordStore :=
  ⟨[("R2E", ⟨"Ada", "Lovelace", "802-555-0100", hashString "802-555-0100", 7⟩)]⟩

/-- A store whose only row carries Bob's fingerprint, in the R2E table. -/
def storeR2EBob : RecordStore :=
  ⟨[("R2E", ⟨"Bob", "Hope", "802-555-0199", hashString "802-555-0199", 9⟩)]⟩

/-! ## Claim C1 -/

/-- Claim C1 counterexample: the claim quantifies over both pipeline
revisions, but `processSubmission` (part_000) never consults the R2E table at
submission time. At this concrete input the fingerprint of the submitted phone
is present in the Completed (R2E) table, yet `processSubmission` performs a
`CreateRecord` write on the Partial table, schedules a follow-up task, and
changes the record store. -/
theorem C1_counterexample_processSubmission :
    storeExists storeR2EAda cfgDemo.AirtableR2ETable (hashString dataAda.Phone) = true
    ∧ countCreateCalls (processSubmission envHappy cfgDemo dataAda storeR2EAda).2 = 1
    ∧ countScheduleCalls (processSubmission envHappy cfgDemo dataAda storeR2EAda).2 = 1
    ∧ (processSubmission envHappy cfgDemo dataAda storeR2EAda).1 ≠ storeR2EAda := by
  decide

/-- Claim C1 (amended): for `ProcessLandingSubmission` (part_001), a
submission whose fingerprint is already present in the Completed (R2E) table
at processing time writes no PartialRecord, schedules no follow-up task, and
leaves the record store unchanged, regardless of Partial-table state and of
any remote-call failures. (`processSubmission` of the monolithic revision
checks only the Partial table, so it is excluded — see the counterexample.) -/
theorem C1_completed_blocks_write (env : Env) (cfg : Config) (data : LandingFormData)
    (st : RecordStore)
    (h : storeExists st cfg.AirtableR2ETable (HashString data.Phone) = true) :
    (ProcessLandingSubmission env cfg data st).1 = st
    ∧ countCreateCalls (ProcessLandingSubmission env cfg data st).2 = 0
    ∧ countScheduleCalls (ProcessLandingSubmission env cfg data st).2 = 0 := by
  unfold ProcessLandingSubmission
  cases hc : env.contact data.Phone data.First data.Last with
  | error e =>
    simp [hc, countCreateCalls, countScheduleCalls, isCreateCall, isScheduleCall]
  | ok tmID =>
    cases hpf : env.existsFailure cfg.AirtablePartialTable (HashString data.Phone) with
    | some e =>
      simp [hc, envRecordExists, hpf, countCreateCalls, countScheduleCalls,
        isCreateCall, isScheduleCall]
    | none =>
      cases hrf : env.existsFailure cfg.AirtableR2ETable (HashString data.Phone) with
      | some e =>
        simp [hc, envRecordExists, hpf, hrf, countCreateCalls, countScheduleCalls,
          isCreateCall, isScheduleCall]
      | none =>
        simp [hc, envRecordExists, hpf, hrf, h, countCreateCalls, countScheduleCalls,
          isCreateCall, isScheduleCall]

/-- Witness for C1 (amended) at a concrete input whose fingerprint sits in the
R2E table. -/
theorem C1_completed_blocks_write_witness :
    (ProcessLandingSubmission envHappy cfgDemo dataAda storeR2EAda).1 = storeR2EAda
    ∧ countCreateCalls (ProcessLandingSubmission envHappy cfgDemo dataAda storeR2EAda).2 = 0
    ∧ countScheduleCalls (ProcessLandingSubmission envHappy cfgDemo dataAda storeR2EAda).2 = 0 :=
  C1_completed_blocks_write envHappy cfgDemo dataAda storeR2EAda (by decide)

/-! ## Claim C2 -/

/-- The rows of `hashString`/`HashString` agree (identical definitions). -/
lemma hashString_eq_HashString (s : String) : hashString s = HashString s := rfl

/-- Claim C2 counterexample: the claim says the absent-from-both-tables row is
the only branch of the decision table that performs any write or scheduling,
over both pipeline revisions. At this concrete input the fingerprint is
present in the Completed table and absent from the Partial table — a
different row of the decision table — yet `processSubmission` (part_000)
performs a `CreateRecord` call and schedules a follow-up. -/
theorem C2_counterexample_processSubmission :
    storeExists storeR2EBob cfgDemo.AirtablePartialTable (hashString dataBob.Phone) = false
    ∧ storeExists storeR2EBob cfgDemo.AirtableR2ETable (hashString dataBob.Phone) = true
    ∧ 1 ≤ countCreateCalls (processSubmission envHappy cfgDemo dataBob storeR2EBob).2
    ∧ 1 ≤ countScheduleCalls (processSubmission envHappy cfgDemo dataBob storeR2EBob).2 := by
  decide

/-- Claim C2 (amended): when the fingerprint is absent from both tables and
contact resolution, the existence checks, the contact-id parse and the record
write all succeed, each pipeline revision performs exactly one `CreateRecord`
call on the Partial table — with fields first, last, phone, hash = the
fingerprint, and the contact id as an integer — appends exactly that row to
the store, and schedules exactly one follow-up task, whose deferred body
always begins with the fixed 15-minute sleep. For `ProcessLandingSubmission`
(part_001) any write or scheduling, in any environment, requires both
existence checks to have returned false — the single state-changing branch;
for `processSubmission` (part_000) it requires the Partial check to have
returned false (that revision never consults the R2E table at submission
time, so Completed-table presence does not gate its write — see the
counterexample). -/
theorem C2_fresh_submission_single_write (env : Env) (cfg : Config)
    (data : LandingFormData) (st : RecordStore) (id : String) (i : Int)
    (hc : env.contact data.Phone data.First data.Last = Except.ok id)
    (hpf : env.existsFailure cfg.AirtablePartialTable (HashString data.Phone) = none)
    (hrf : env.existsFailure cfg.AirtableR2ETable (HashString data.Phone) = none)
    (hp : storeExists st cfg.AirtablePartialTable (HashString data.Phone) = false)
    (hr : storeExists st cfg.AirtableR2ETable (HashString data.Phone) = false)
    (hparse : parseInt64 id = Except.ok i)
    (hcf : env.createFailure cfg.AirtablePartialTable
      ⟨data.First, data.Last, data.Phone, HashString data.Phone, i⟩ = none) :
    ProcessLandingSubmission env cfg data st =
      (storeCreate st cfg.AirtablePartialTable
        ⟨data.First, data.Last, data.Phone, HashString data.Phone, i⟩,
       [FacadeEvent.getOrCreateContact data.Phone data.First data.Last,
        FacadeEvent.recordExists cfg.AirtablePartialTable (HashString data.Phone),
        FacadeEvent.recordExists cfg.AirtableR2ETable (HashString data.Phone),
        FacadeEvent.createRecord cfg.AirtablePartialTable
          ⟨data.First, data.Last, data.Phone, HashString data.Phone, i⟩,
        FacadeEvent.scheduleTask ⟨HashString data.Phone, data.First, data.Last, id⟩])
    ∧ processSubmission env cfg data st =
      (storeCreate st cfg.AirtablePartialTable
        ⟨data.First, data.Last, data.Phone, HashString data.Phone, i⟩,
       [FacadeEvent.getOrCreateContact data.Phone data.First data.Last,
        FacadeEvent.recordExists cfg.AirtablePartialTable (HashString data.Phone),
        FacadeEvent.createRecord cfg.AirtablePartialTable
          ⟨data.First, data.Last, data.Phone, HashString data.Phone, i⟩,
        FacadeEvent.scheduleTask ⟨HashString data.Phone, data.First, data.Last, id⟩])
    ∧ countCreateCalls (ProcessLandingSubmission env cfg data st).2 = 1
    ∧ countScheduleCalls (ProcessLandingSubmission env cfg data st).2 = 1
    ∧ (∀ env2 cfg2 st2 fp fn ln cid,
        (scheduleFollowup env2 cfg2 st2 fp fn ln cid).head? = some (FacadeEvent.sleep 15))
    ∧ (∀ env2 cfg2 data2 st2,
        1 ≤ countCreateCalls (ProcessLandingSubmission env2 cfg2 data2 st2).2
          ∨ 1 ≤ countScheduleCalls (ProcessLandingSubmission env2 cfg2 data2 st2).2 →
        envRecordExists env2 st2 cfg2.AirtablePartialTable (HashString data2.Phone)
            = Except.ok false
          ∧ envRecordExists env2 st2 cfg2.AirtableR2ETable (HashString data2.Phone)
            = Except.ok false)
    ∧ (∀ env2 cfg2 data2 st2,
        1 ≤ countCreateCalls (processSubmission env2 cfg2 data2 st2).2
          ∨ 1 ≤ countScheduleCalls (processSubmission env2 cfg2 data2 st2).2 →
        envRecordExists env2 st2 cfg2.AirtablePartialTable (hashString data2.Phone)
            = Except.ok false) := by
  have hpl : ProcessLandingSubmission env cfg data st =
      (storeCreate st cfg.AirtablePartialTable
        ⟨data.First, data.Last, data.Phone, HashString data.Phone, i⟩,
       [FacadeEvent.getOrCreateContact data.Phone data.First data.Last,
        FacadeEvent.recordExists cfg.AirtablePartialTable (HashString data.Phone),
        FacadeEvent.recordExists cfg.AirtableR2ETable (HashString data.Phone),
        FacadeEvent.createRecord cfg.AirtablePartialTable
          ⟨data.First, data.Last, data.Phone, HashString data.Phone, i⟩,
        FacadeEvent.scheduleTask ⟨HashString data.Phone, data.First, data.Last, id⟩]) := by
    unfold ProcessLandingSubmission
    simp [hc, envRecordExists, hpf, hrf, hp, hr, hparse, hcf]
  have hps : processSubmission env cfg data st =
      (storeCreate st cfg.AirtablePartialTable
        ⟨data.First, data.Last, data.Phone, HashString data.Phone, i⟩,
       [FacadeEvent.getOrCreateContact data.Phone data.First data.Last,
        FacadeEvent.recordExists cfg.AirtablePartialTable (HashString data.Phone),
        FacadeEvent.createRecord cfg.AirtablePartialTable
          ⟨data.First, data.Last, data.Phone, HashString data.Phone, i⟩,
        FacadeEvent.scheduleTask ⟨HashString data.Phone, data.First, data.Last, id⟩]) := by
    unfold processSubmission
    simp [hashString_eq_HashString, hc, envRecordExists, hpf, hp, hparse, hcf]
  refine ⟨hpl, hps, ?_, ?_, ?_, ?_, ?_⟩
  · rw [hpl]
    simp [countCreateCalls, isCreateCall, List.filter]
  · rw [hpl]
    simp [countScheduleCalls, isScheduleCall, List.filter]
  · intro env2 cfg2 st2 fp fn ln cid
    rfl
  · intro env2 cfg2 data2 st2 h
    cases hc2 : env2.contact data2.Phone data2.First data2.Last with
    | error e =>
      exfalso
      simp [ProcessLandingSubmission, hc2, countCreateCalls, countScheduleCalls,
        isCreateCall, isScheduleCall, List.filter] at h
    | ok id2 =>
      cases hpe : envRecordExists env2 st2 cfg2.AirtablePartialTable (HashString data2.Phone) with
      | error e =>
        exfalso
        simp [ProcessLandingSubmission, hc2, hpe, countCreateCalls, countScheduleCalls,
          isCreateCall, isScheduleCall, List.filter] at h
      | ok b1 =>
        cases hre : envRecordExists env2 st2 cfg2.AirtableR2ETable (HashString data2.Phone) with
        | error e =>
          exfalso
          simp [ProcessLandingSubmission, hc2, hpe, hre, countCreateCalls, countScheduleCalls,
            isCreateCall, isScheduleCall, List.filter] at h
        | ok b2 =>
          cases b1 with
          | false =>
            cases b2 with
            | false => exact ⟨rfl, rfl⟩
            | true =>
              exfalso
              simp [ProcessLandingSubmission, hc2, hpe, hre, countCreateCalls,
                countScheduleCalls, isCreateCall, isScheduleCall, List.filter] at h
          | true =>
            exfalso
            simp [ProcessLandingSubmission, hc2, hpe, hre, countCreateCalls,
              countScheduleCalls, isCreateCall, isScheduleCall, List.filter] at h
  · intro env2 cfg2 data2 st2 h
    cases hc2 : env2.contact data2.Phone data2.First data2.Last with
    | error e =>
      exfalso
      simp [processSubmission, hc2, countCreateCalls, countScheduleCalls,
        isCreateCall, isScheduleCall, List.filter] at h
    | ok id2 =>
      cases hpe : envRecordExists env2 st2 cfg2.AirtablePartialTable (hashString data2.Phone) with
      | error e =>
        exfalso
        simp [processSubmission, hc2, hpe, countCreateCalls, countScheduleCalls,
          isCreateCall, isScheduleCall, List.filter] at h
      | ok b1 =>
        cases b1 with
        | false => exact rfl
        | true =>
          exfalso
          simp [processSubmission, hc2, hpe, countCreateCalls, countScheduleCalls,
            isCreateCall, isScheduleCall, List.filter] at h

/-- Witness for C2 (amended) at the specification's end-to-end input against
an empty store and an all-success environment. -/
theorem C2_fresh_submission_single_write_witness :
    ProcessLandingSubmission envHappy cfgDemo dataAda ⟨[]⟩ =
      (storeCreate ⟨[]⟩ cfgDemo.AirtablePartialTable
        ⟨dataAda.First, dataAda.Last, dataAda.Phone, HashString dataAda.Phone, 123⟩,
       [FacadeEvent.getOrCreateContact dataAda.Phone dataAda.First dataAda.Last,
        FacadeEvent.recordExists cfgDemo.AirtablePartialTable (HashString dataAda.Phone),
        FacadeEvent.recordExists cfgDemo.AirtableR2ETable (HashString dataAda.Phone),
        FacadeEvent.createRecord cfgDemo.AirtablePartialTable
          ⟨dataAda.First, dataAda.Last, dataAda.Phone, HashString dataAda.Phone, 123⟩,
        FacadeEvent.scheduleTask ⟨HashString dataAda.Phone, dataAda.First, dataAda.Last, "123"⟩])
    ∧ processSubmission envHappy cfgDemo dataAda ⟨[]⟩ =
      (storeCreate ⟨[]⟩ cfgDemo.AirtablePartialTable
        ⟨dataAda.First, dataAda.Last, dataAda.Phone, HashString dataAda.Phone, 123⟩,
       [FacadeEvent.getOrCreateContact dataAda.Phone dataAda.First dataAda.Last,
        FacadeEvent.recordExists cfgDemo.AirtablePartialTable (HashString dataAda.Phone),
        FacadeEvent.createRecord cfgDemo.AirtablePartialTable
          ⟨dataAda.First, dataAda.Last, dataAda.Phone, HashString dataAda.Phone, 123⟩,
        FacadeEvent.scheduleTask ⟨HashString dataAda.Phone, dataAda.First, dataAda.Last, "123"⟩])
    ∧ countCreateCalls (ProcessLandingSubmission envHappy cfgDemo dataAda ⟨[]⟩).2 = 1
    ∧ countScheduleCalls (ProcessLandingSubmission envHappy cfgDemo dataAda ⟨[]⟩).2 = 1
    ∧ (∀ env2 cfg2 st2 fp fn ln cid,
        (scheduleFollowup env2 cfg2 st2 fp fn ln cid).head? = some (FacadeEvent.sleep 15))
    ∧ (∀ env2 cfg2 data2 st2,
        1 ≤ countCreateCalls (ProcessLandingSubmission env2 cfg2 data2 st2).2
          ∨ 1 ≤ countScheduleCalls (ProcessLandingSubmission env2 cfg2 data2 st2).2 →
        envRecordExists env2 st2 cfg2.AirtablePartialTable (HashString data2.Phone)
            = Except.ok false
          ∧ envRecordExists env2 st2 cfg2.AirtableR2ETable (HashString data2.Phone)
            = Except.ok false)
    ∧ (∀ env2 cfg2 data2 st2,
        1 ≤ countCreateCalls (processSubmission env2 cfg2 data2 st2).2
          ∨ 1 ≤ countScheduleCalls (processSubmission env2 cfg2 data2 st2).2 →
        envRecordExists env2 st2 cfg2.AirtablePartialTable (hashString data2.Phone)
            = Except.ok false) :=
  C2_fresh_submission_single_write envHappy cfgDemo dataAda ⟨[]⟩ "123" 123
    rfl rfl rfl rfl rfl rfl rfl

/-! ## Claim C3 -/

/-- The encoded query string for the follow-up URL: `url.Values.Encode` sorts
the keys `first`, `id`, `last` ascending and escapes each component. -/
lemma urlValuesEncode_followup (fn ln fp : String) :
    urlValuesEncode [("first", fn), ("last", ln), ("id", fp)]
      = ("first" ++ "=" ++ queryEscape fn) ++ "&" ++ ("id" ++ "=" ++ queryEscape fp) ++ "&"
        ++ ("last" ++ "=" ++ queryEscape ln) := rfl

/-- Claim C3: when the follow-up task fires (after its fixed sleep), it sends
a message if and only if the fingerprint is absent from the R2E table at that
moment. If present, the trace is exactly the sleep and the re-check — no
short link, no message. If absent, it requests exactly one short link for the
downstream form URL carrying the query parameters `first`, `id` = the
fingerprint, and `last`, and sends exactly one SMS reading
"Hello <first>! Finish signing up for DemocracyOS here: <shortlink>". -/
theorem C3_followup_send_iff_absent (env : Env) (cfg : Config) (st : RecordStore)
    (fp fn ln cid link : String)
    (hrf : env.existsFailure cfg.AirtableR2ETable fp = none)
    (hok : env.shorten (followupTargetURL fn ln fp) = Except.ok link) :
    followupTargetURL fn ln fp
      = "https://forms.democracyOS.com/t/bj1RaePxL2us?" ++
          (("first" ++ "=" ++ queryEscape fn) ++ "&" ++ ("id" ++ "=" ++ queryEscape fp) ++ "&"
            ++ ("last" ++ "=" ++ queryEscape ln))
    ∧ followupMessage fn link
      = "Hello " ++ fn ++ "! Finish signing up for DemocracyOS here: " ++ link
    ∧ (storeExists st cfg.AirtableR2ETable fp = true →
      scheduleFollowup env cfg st fp fn ln cid =
        [FacadeEvent.sleep 15, FacadeEvent.recordExists cfg.AirtableR2ETable fp])
    ∧ (storeExists st cfg.AirtableR2ETable fp = false →
      scheduleFollowup env cfg st fp fn ln cid =
        [FacadeEvent.sleep 15, FacadeEvent.recordExists cfg.AirtableR2ETable fp,
         FacadeEvent.createShortLink (followupTargetURL fn ln fp),
         FacadeEvent.sendMessage cid (followupMessage fn link)])
    ∧ (countSendCalls (scheduleFollowup env cfg st fp fn ln cid) = 1
        ↔ storeExists st cfg.AirtableR2ETable fp = false)
    ∧ (countShortLinkCalls (scheduleFollowup env cfg st fp fn ln cid) = 1
        ↔ storeExists st cfg.AirtableR2ETable fp = false) := by
  refine ⟨rfl, rfl, ?_⟩
  cases hex : storeExists st cfg.AirtableR2ETable fp with
  | true =>
    have htr : scheduleFollowup env cfg st fp fn ln cid =
        [FacadeEvent.sleep 15, FacadeEvent.recordExists cfg.AirtableR2ETable fp] := by
      unfold scheduleFollowup
      simp [envRecordExists, hrf, hex]
    refine ⟨fun _ => htr, fun hcontra => Bool.noConfusion hcontra, ?_, ?_⟩
    · rw [htr]
      simp [countSendCalls, isSendCall, List.filter]
    · rw [htr]
      simp [countShortLinkCalls, isShortLinkCall, List.filter]
  | false =>
    have htr : scheduleFollowup env cfg st fp fn ln cid =
        [FacadeEvent.sleep 15, FacadeEvent.recordExists cfg.AirtableR2ETable fp,
         FacadeEvent.createShortLink (followupTargetURL fn ln fp),
         FacadeEvent.sendMessage cid (followupMessage fn link)] := by
      unfold scheduleFollowup
      simp [envRecordExists, hrf, hex, hok]
    refine ⟨fun hcontra => Bool.noConfusion hcontra, fun _ => htr, ?_, ?_⟩
    · rw [htr]
      simp [countSendCalls, isSendCall, List.filter]
    · rw [htr]
      simp [countShortLinkCalls, isShortLinkCall, List.filter]

/-- Witness for C3 at a concrete firing state with the fingerprint absent. -/
theorem C3_followup_send_iff_absent_witness :
    (followupTargetURL "Ada" "Lovelace" "HASH"
      = "https://forms.democracyOS.com/t/bj1RaePxL2us?" ++
          (("first" ++ "=" ++ queryEscape "Ada") ++ "&" ++ ("id" ++ "=" ++ queryEscape "HASH")
            ++ "&" ++ ("last" ++ "=" ++ queryEscape "Lovelace"))
    ∧ followupMessage "Ada" "https://sho.rt/x"
      = "Hello " ++ "Ada" ++ "! Finish signing up for DemocracyOS here: " ++ "https://sho.rt/x"
    ∧ (storeExists (⟨[]⟩ : RecordStore) cfgDemo.AirtableR2ETable "HASH" = true →
      scheduleFollowup envHappy cfgDemo ⟨[]⟩ "HASH" "Ada" "Lovelace" "42" =
        [FacadeEvent.sleep 15, FacadeEvent.recordExists cfgDemo.AirtableR2ETable "HASH"])
    ∧ (storeExists (⟨[]⟩ : RecordStore) cfgDemo.AirtableR2ETable "HASH" = false →
      scheduleFollowup envHappy cfgDemo ⟨[]⟩ "HASH" "Ada" "Lovelace" "42" =
        [FacadeEvent.sleep 15, FacadeEvent.recordExists cfgDemo.AirtableR2ETable "HASH",
         FacadeEvent.createShortLink (followupTargetURL "Ada" "Lovelace" "HASH"),
         FacadeEvent.sendMessage "42" (followupMessage "Ada" "https://sho.rt/x")])
    ∧ (countSendCalls (scheduleFollowup envHappy cfgDemo ⟨[]⟩ "HASH" "Ada" "Lovelace" "42") = 1
        ↔ storeExists (⟨[]⟩ : RecordStore) cfgDemo.AirtableR2ETable "HASH" = false)
    ∧ (countShortLinkCalls (scheduleFollowup envHappy cfgDemo ⟨[]⟩ "HASH" "Ada" "Lovelace" "42")
          = 1
        ↔ storeExists (⟨[]⟩ : RecordStore) cfgDemo.AirtableR2ETable "HASH" = false)) :=
  C3_followup_send_iff_absent envHappy cfgDemo ⟨[]⟩ "HASH" "Ada" "Lovelace" "42"
    "https://sho.rt/x" rfl rfl

/-! ## Claim C4 -/

/-- The contact-directory call fails for this submission. -/
def contactFails (env : Env) (data : LandingFormData) : Prop :=
  ∃ e, env.contact data.Phone data.First data.Last = Except.error e

/-- The contact id returned for this submission does not parse as an integer,
or the Partial-table write for it fails. -/
def parseOrCreateFails (env : Env) (cfg : Config) (data : LandingFormData) : Prop :=
  ∃ id, env.contact data.Phone data.First data.Last = Except.ok id ∧
    ((∃ e, parseInt64 id = Except.error e) ∨
     (∃ i, parseInt64 id = Except.ok i ∧
       (env.createFailure cfg.AirtablePartialTable
         ⟨data.First, data.Last, data.Phone, HashString data.Phone, i⟩).isSome))

/-- Claim C4: every failure before the PartialRecord write — contact
resolution error, record-store existence-check error, contact id not
parseable as an integer, or record-store write error — aborts the submission
with the record store unchanged, no follow-up scheduled, and no retry (at
most the one failed `CreateRecord` attempt appears in the trace). Stated for
both revisions, each over the failure modes of the calls it actually makes. -/
theorem C4_failure_aborts_without_write (env : Env) (cfg : Config)
    (data : LandingFormData) (st : RecordStore) :
    ((contactFails env data
        ∨ (env.existsFailure cfg.AirtablePartialTable (HashString data.Phone)).isSome
        ∨ (env.existsFailure cfg.AirtableR2ETable (HashString data.Phone)).isSome
        ∨ parseOrCreateFails env cfg data) →
      (ProcessLandingSubmission env cfg data st).1 = st
      ∧ countScheduleCalls (ProcessLandingSubmission env cfg data st).2 = 0
      ∧ countCreateCalls (ProcessLandingSubmission env cfg data st).2 ≤ 1)
    ∧ ((contactFails env data
        ∨ (env.existsFailure cfg.AirtablePartialTable (HashString data.Phone)).isSome
        ∨ parseOrCreateFails env cfg data) →
      (processSubmission env cfg data st).1 = st
      ∧ countScheduleCalls (processSubmission env cfg data st).2 = 0
      ∧ countCreateCalls (processSubmission env cfg data st).2 ≤ 1) := by
  constructor
  · intro h
    unfold ProcessLandingSubmission
    cases hc : env.contact data.Phone data.First data.Last with
    | error e =>
      simp [hc, countScheduleCalls, isScheduleCall, countCreateCalls, isCreateCall, List.filter]
    | ok id =>
      cases hpf : env.existsFailure cfg.AirtablePartialTable (HashString data.Phone) with
      | some e =>
        simp [hc, envRecordExists, hpf, countScheduleCalls, isScheduleCall,
          countCreateCalls, isCreateCall, List.filter]
      | none =>
        cases hrf : env.existsFailure cfg.AirtableR2ETable (HashString data.Phone) with
        | some e =>
          simp [hc, envRecordExists, hpf, hrf, countScheduleCalls, isScheduleCall,
            countCreateCalls, isCreateCall, List.filter]
        | none =>
          cases hsp : storeExists st cfg.AirtablePartialTable (HashString data.Phone) with
          | true =>
            simp [hc, envRecordExists, hpf, hrf, hsp, countScheduleCalls, isScheduleCall,
              countCreateCalls, isCreateCall, List.filter]
          | false =>
            cases hsr : storeExists st cfg.AirtableR2ETable (HashString data.Phone) with
            | true =>
              simp [hc, envRecordExists, hpf, hrf, hsp, hsr, countScheduleCalls,
                isScheduleCall, countCreateCalls, isCreateCall, List.filter]
            | false =>
              cases hparse : parseInt64 id with
              | error e =>
                simp [hc, envRecordExists, hpf, hrf, hsp, hsr, hparse, countScheduleCalls,
                  isScheduleCall, countCreateCalls, isCreateCall, List.filter]
              | ok i =>
                cases hcf : env.createFailure cfg.AirtablePartialTable
                    ⟨data.First, data.Last, data.Phone, HashString data.Phone, i⟩ with
                | some e =>
                  simp [hc, envRecordExists, hpf, hrf, hsp, hsr, hparse, hcf,
                    countScheduleCalls, isScheduleCall, countCreateCalls, isCreateCall,
                    List.filter]
                | none =>
                  exfalso
                  rcases h with ⟨e, he⟩ | hs | hs | ⟨id2, hid2, hrest⟩
                  · rw [hc] at he
                    exact Except.noConfusion he
                  · rw [hpf] at hs
                    simp at hs
                  · rw [hrf] at hs
                    simp at hs
                  · rw [hc] at hid2
                    injection hid2 with hid3
                    subst hid3
                    rcases hrest with ⟨e, hpe⟩ | ⟨i2, hi2, hcfs⟩
                    · rw [hparse] at hpe
                      exact Except.noConfusion hpe
                    · rw [hparse] at hi2
                      injection hi2 with hi3
                      subst hi3
                      rw [hcf] at hcfs
                      simp at hcfs
  · intro h
    unfold processSubmission
    cases hc : env.contact data.Phone data.First data.Last with
    | error e =>
      simp [hc, countScheduleCalls, isScheduleCall, countCreateCalls, isCreateCall, List.filter]
    | ok id =>
      cases hpf : env.existsFailure cfg.AirtablePartialTable (hashString data.Phone) with
      | some e =>
        simp [hc, envRecordExists, hpf, countScheduleCalls, isScheduleCall,
          countCreateCalls, isCreateCall, List.filter]
      | none =>
        cases hsp : storeExists st cfg.AirtablePartialTable (hashString data.Phone) with
        | true =>
          simp [hc, envRecordExists, hpf, hsp, countScheduleCalls, isScheduleCall,
            countCreateCalls, isCreateCall, List.filter]
        | false =>
          cases hparse : parseInt64 id with
          | error e =>
            simp [hc, envRecordExists, hpf, hsp, hparse, countScheduleCalls, isScheduleCall,
              countCreateCalls, isCreateCall, List.filter]
          | ok i =>
            cases hcf : env.createFailure cfg.AirtablePartialTable
                ⟨data.First, data.Last, data.Phone, hashString data.Phone, i⟩ with
            | some e =>
              simp [hc, envRecordExists, hpf, hsp, hparse, hcf, countScheduleCalls,
                isScheduleCall, countCreateCalls, isCreateCall, List.filter]
            | none =>
              exfalso
              rcases h with ⟨e, he⟩ | hs | ⟨id2, hid2, hrest⟩
              · rw [hc] at he
                exact Except.noConfusion he
              · rw [hashString_eq_HashString] at hpf
                rw [hpf] at hs
                simp at hs
              · rw [hc] at hid2
                injection hid2 with hid3
                subst hid3
                rcases hrest with ⟨e, hpe⟩ | ⟨i2, hi2, hcfs⟩
                · rw [hparse] at hpe
                  exact Except.noConfusion hpe
                · rw [hparse] at hi2
                  injection hi2 with hi3
                  subst hi3
                  rw [hashString_eq_HashString] at hcf
                  rw [hcf] at hcfs
                  simp at hcfs

/-- An environment whose contact-directory call always fails. -/
def envContactFail : Env :=
  { contact := fun _ _ _ => Except.error "boom"
    existsFailure := fun _ _ => none
    createFailure := fun _ _ => none
    shorten := fun _ => Except.ok "https://sho.rt/x"
    send := fun _ _ => none }

/-- Witness for C4: a concrete contact-resolution failure aborts both
revisions with the store untouched and nothing scheduled. -/
theorem C4_failure_aborts_without_write_witness :
    ((ProcessLandingSubmission envContactFail cfgDemo dataAda ⟨[]⟩).1 = (⟨[]⟩ : RecordStore)
     ∧ countScheduleCalls (ProcessLandingSubmission envContactFail cfgDemo dataAda ⟨[]⟩).2 = 0
     ∧ countCreateCalls (ProcessLandingSubmission envContactFail cfgDemo dataAda ⟨[]⟩).2 ≤ 1)
    ∧ ((processSubmission envContactFail cfgDemo dataAda ⟨[]⟩).1 = (⟨[]⟩ : RecordStore)
     ∧ countScheduleCalls (processSubmission envContactFail cfgDemo dataAda ⟨[]⟩).2 = 0
     ∧ countCreateCalls (processSubmission envContactFail cfgDemo dataAda ⟨[]⟩).2 ≤ 1) :=
  ⟨(C4_failure_aborts_without_write envContactFail cfgDemo dataAda ⟨[]⟩).1
      (Or.inl ⟨"boom", rfl⟩),
   (C4_failure_aborts_without_write envContactFail cfgDemo dataAda ⟨[]⟩).2
      (Or.inl ⟨"boom", rfl⟩)⟩

/-! ## Claim C5 -/

/-- A freshly created row with the queried hash makes the existence check true. -/
lemma storeExists_create_same (st : RecordStore) (table : String) (f : PartialRecordFields) :
    storeExists (storeCreate st table f) table f.hash = true := by
  simp [storeExists, storeCreate, List.any_append]

/-- A fresh run of `ProcessLandingSubmission` (both tables miss, every call
succeeds) writes the record and schedules the follow-up. -/
lemma pl_fresh_run (env : Env) (cfg : Config) (data : LandingFormData) (st : RecordStore)
    (id : String) (i : Int)
    (hc : env.contact data.Phone data.First data.Last = Except.ok id)
    (hpf : env.existsFailure cfg.AirtablePartialTable (HashString data.Phone) = none)
    (hrf : env.existsFailure cfg.AirtableR2ETable (HashString data.Phone) = none)
    (hp : storeExists st cfg.AirtablePartialTable (HashString data.Phone) = false)
    (hr : storeExists st cfg.AirtableR2ETable (HashString data.Phone) = false)
    (hparse : parseInt64 id = Except.ok i)
    (hcf : env.createFailure cfg.AirtablePartialTable
      ⟨data.First, data.Last, data.Phone, HashString data.Phone, i⟩ = none) :
    ProcessLandingSubmission env cfg data st =
      (storeCreate st cfg.AirtablePartialTable
        ⟨data.First, data.Last, data.Phone, HashString data.Phone, i⟩,
       [FacadeEvent.getOrCreateContact data.Phone data.First data.Last,
        FacadeEvent.recordExists cfg.AirtablePartialTable (HashString data.Phone),
        FacadeEvent.recordExists cfg.AirtableR2ETable (HashString data.Phone),
        FacadeEvent.createRecord cfg.AirtablePartialTable
          ⟨data.First, data.Last, data.Phone, HashString data.Phone, i⟩,
        FacadeEvent.scheduleTask ⟨HashString data.Phone, data.First, data.Last, id⟩]) := by
  unfold ProcessLandingSubmission
  simp [hc, envRecordExists, hpf, hrf, hp, hr, hparse, hcf]

/-- A run of `ProcessLandingSubmission` that finds the fingerprint in the
Partial table is a no-op beyond the two checks. -/
lemma pl_skip_run (env : Env) (cfg : Config) (data : LandingFormData) (st : RecordStore)
    (id : String)
    (hc : env.contact data.Phone data.First data.Last = Except.ok id)
    (hpf : env.existsFailure cfg.AirtablePartialTable (HashString data.Phone) = none)
    (hrf : env.existsFailure cfg.AirtableR2ETable (HashString data.Phone) = none)
    (hsp : storeExists st cfg.AirtablePartialTable (HashString data.Phone) = true) :
    ProcessLandingSubmission env cfg data st =
      (st, [FacadeEvent.getOrCreateContact data.Phone data.First data.Last,
            FacadeEvent.recordExists cfg.AirtablePartialTable (HashString data.Phone),
            FacadeEvent.recordExists cfg.AirtableR2ETable (HashString data.Phone)]) := by
  unfold ProcessLandingSubmission
  simp [hc, envRecordExists, hpf, hrf, hsp]

/-- A fresh run of `processSubmission` (Partial table misses, every call
succeeds) writes the record and schedules the follow-up. -/
lemma ps_fresh_run (env : Env) (cfg : Config) (data : LandingFormData) (st : RecordStore)
    (id : String) (i : Int)
    (hc : env.contact data.Phone data.First data.Last = Except.ok id)
    (hpf : env.existsFailure cfg.AirtablePartialTable (HashString data.Phone) = none)
    (hp : storeExists st cfg.AirtablePartialTable (HashString data.Phone) = false)
    (hparse : parseInt64 id = Except.ok i)
    (hcf : env.createFailure cfg.AirtablePartialTable
      ⟨data.First, data.Last, data.Phone, HashString data.Phone, i⟩ = none) :
    processSubmission env cfg data st =
      (storeCreate st cfg.AirtablePartialTable
        ⟨data.First, data.Last, data.Phone, HashString data.Phone, i⟩,
       [FacadeEvent.getOrCreateContact data.Phone data.First data.Last,
        FacadeEvent.recordExists cfg.AirtablePartialTable (HashString data.Phone),
        FacadeEvent.createRecord cfg.AirtablePartialTable
          ⟨data.First, data.Last, data.Phone, HashString data.Phone, i⟩,
        FacadeEvent.scheduleTask ⟨HashString data.Phone, data.First, data.Last, id⟩]) := by
  unfold processSubmission
  simp [hashString_eq_HashString, hc, envRecordExists, hpf, hp, hparse, hcf]

/-- A run of `processSubmission` that finds the fingerprint in the Partial
table is a no-op beyond the check. -/
lemma ps_skip_run (env : Env) (cfg : Config) (data : LandingFormData) (st : RecordStore)
    (id : String)
    (hc : env.contact data.Phone data.First data.Last = Except.ok id)
    (hpf : env.existsFailure cfg.AirtablePartialTable (HashString data.Phone) = none)
    (hsp : storeExists st cfg.AirtablePartialTable (HashString data.Phone) = true) :
    processSubmission env cfg data st =
      (st, [FacadeEvent.getOrCreateContact data.Phone data.First data.Last,
            FacadeEvent.recordExists cfg.AirtablePartialTable (HashString data.Phone)]) := by
  unfold processSubmission
  simp [hashString_eq_HashString, hc, envRecordExists, hpf, hsp]

/-- Claim C5: running the pipeline twice in sequence with the same phone —
the second run starting from the store the first run produced, with the same
environment and the first run fully succeeding — yields exactly one
PartialRecord write in total: the first run appends the one record, the
second run observes the fingerprint present in the Partial table and performs
no write and no scheduling. Holds for both revisions. -/
theorem C5_duplicate_submission_single_write (env : Env) (cfg : Config)
    (data : LandingFormData) (st : RecordStore) (id : String) (i : Int)
    (hc : env.contact data.Phone data.First data.Last = Except.ok id)
    (hpf : env.existsFailure cfg.AirtablePartialTable (HashString data.Phone) = none)
    (hrf : env.existsFailure cfg.AirtableR2ETable (HashString data.Phone) = none)
    (hp : storeExists st cfg.AirtablePartialTable (HashString data.Phone) = false)
    (hr : storeExists st cfg.AirtableR2ETable (HashString data.Phone) = false)
    (hparse : parseInt64 id = Except.ok i)
    (hcf : env.createFailure cfg.AirtablePartialTable
      ⟨data.First, data.Last, data.Phone, HashString data.Phone, i⟩ = none) :
    (ProcessLandingSubmission env cfg data st).1
      = storeCreate st cfg.AirtablePartialTable
          ⟨data.First, data.Last, data.Phone, HashString data.Phone, i⟩
    ∧ countCreateCalls (ProcessLandingSubmission env cfg data st).2 = 1
    ∧ storeExists (ProcessLandingSubmission env cfg data st).1
        cfg.AirtablePartialTable (HashString data.Phone) = true
    ∧ ProcessLandingSubmission env cfg data (ProcessLandingSubmission env cfg data st).1
      = ((ProcessLandingSubmission env cfg data st).1,
         [FacadeEvent.getOrCreateContact data.Phone data.First data.Last,
          FacadeEvent.recordExists cfg.AirtablePartialTable (HashString data.Phone),
          FacadeEvent.recordExists cfg.AirtableR2ETable (HashString data.Phone)])
    ∧ countCreateCalls
        (ProcessLandingSubmission env cfg data (ProcessLandingSubmission env cfg data st).1).2 = 0
    ∧ countScheduleCalls
        (ProcessLandingSubmission env cfg data (ProcessLandingSubmission env cfg data st).1).2 = 0
    ∧ (processSubmission env cfg data st).1
      = storeCreate st cfg.AirtablePartialTable
          ⟨data.First, data.Last, data.Phone, HashString data.Phone, i⟩
    ∧ countCreateCalls (processSubmission env cfg data st).2 = 1
    ∧ processSubmission env cfg data (processSubmission env cfg data st).1
      = ((processSubmission env cfg data st).1,
         [FacadeEvent.getOrCreateContact data.Phone data.First data.Last,
          FacadeEvent.recordExists cfg.AirtablePartialTable (HashString data.Phone)])
    ∧ countCreateCalls
        (processSubmission env cfg data (processSubmission env cfg data st).1).2 = 0
    ∧ countScheduleCalls
        (processSubmission env cfg data (processSubmission env cfg data st).1).2 = 0 := by
  have h1 := pl_fresh_run env cfg data st id i hc hpf hrf hp hr hparse hcf
  have hst1 : (ProcessLandingSubmission env cfg data st).1
      = storeCreate st cfg.AirtablePartialTable
          ⟨data.First, data.Last, data.Phone, HashString data.Phone, i⟩ := by rw [h1]
  have hex1 : storeExists (ProcessLandingSubmission env cfg data st).1
      cfg.AirtablePartialTable (HashString data.Phone) = true := by
    rw [hst1]
    exact storeExists_create_same st cfg.AirtablePartialTable
      ⟨data.First, data.Last, data.Phone, HashString data.Phone, i⟩
  have h2 := pl_skip_run env cfg data (ProcessLandingSubmission env cfg data st).1 id
    hc hpf hrf hex1
  have g1 := ps_fresh_run env cfg data st id i hc hpf hp hparse hcf
  have gst1 : (processSubmission env cfg data st).1
      = storeCreate st cfg.AirtablePartialTable
          ⟨data.First, data.Last, data.Phone, HashString data.Phone, i⟩ := by rw [g1]
  have gex1 : storeExists (processSubmission env cfg data st).1
      cfg.AirtablePartialTable (HashString data.Phone) = true := by
    rw [gst1]
    exact storeExists_create_same st cfg.AirtablePartialTable
      ⟨data.First, data.Last, data.Phone, HashString data.Phone, i⟩
  have g2 := ps_skip_run env cfg data (processSubmission env cfg data st).1 id hc hpf gex1
  refine ⟨hst1, ?_, hex1, h2, ?_, ?_, gst1, ?_, g2, ?_, ?_⟩
  · rw [h1]
    simp [countCreateCalls, isCreateCall, List.filter]
  · rw [h2]
    simp [countCreateCalls, isCreateCall, List.filter]
  · rw [h2]
    simp [countScheduleCalls, isScheduleCall, List.filter]
  · rw [g1]
    simp [countCreateCalls, isCreateCall, List.filter]
  · rw [g2]
    simp [countCreateCalls, isCreateCall, List.filter]
  · rw [g2]
    simp [countScheduleCalls, isScheduleCall, List.filter]

/-- Witness for C5 at the specification's end-to-end input, empty store. -/
theorem C5_duplicate_submission_single_write_witness :
    ((ProcessLandingSubmission envHappy cfgDemo dataAda ⟨[]⟩).1
      = storeCreate ⟨[]⟩ cfgDemo.AirtablePartialTable
          ⟨dataAda.First, dataAda.Last, dataAda.Phone, HashString dataAda.Phone, 123⟩
    ∧ countCreateCalls (ProcessLandingSubmission envHappy cfgDemo dataAda ⟨[]⟩).2 = 1
    ∧ storeExists (ProcessLandingSubmission envHappy cfgDemo dataAda ⟨[]⟩).1
        cfgDemo.AirtablePartialTable (HashString dataAda.Phone) = true
    ∧ ProcessLandingSubmission envHappy cfgDemo dataAda
        (ProcessLandingSubmission envHappy cfgDemo dataAda ⟨[]⟩).1
      = ((ProcessLandingSubmission envHappy cfgDemo dataAda ⟨[]⟩).1,
         [FacadeEvent.getOrCreateContact dataAda.Phone dataAda.First dataAda.Last,
          FacadeEvent.recordExists cfgDemo.AirtablePartialTable (HashString dataAda.Phone),
          FacadeEvent.recordExists cfgDemo.AirtableR2ETable (HashString dataAda.Phone)])
    ∧ countCreateCalls (ProcessLandingSubmission envHappy cfgDemo dataAda
        (ProcessLandingSubmission envHappy cfgDemo dataAda ⟨[]⟩).1).2 = 0
    ∧ countScheduleCalls (ProcessLandingSubmission envHappy cfgDemo dataAda
        (ProcessLandingSubmission envHappy cfgDemo dataAda ⟨[]⟩).1).2 = 0
    ∧ (processSubmission envHappy cfgDemo dataAda ⟨[]⟩).1
      = storeCreate ⟨[]⟩ cfgDemo.AirtablePartialTable
          ⟨dataAda.First, dataAda.Last, dataAda.Phone, HashString dataAda.Phone, 123⟩
    ∧ countCreateCalls (processSubmission envHappy cfgDemo dataAda ⟨[]⟩).2 = 1
    ∧ processSubmission envHappy cfgDemo dataAda
        (processSubmission envHappy cfgDemo dataAda ⟨[]⟩).1
      = ((processSubmission envHappy cfgDemo dataAda ⟨[]⟩).1,
         [FacadeEvent.getOrCreateContact dataAda.Phone dataAda.First dataAda.Last,
          FacadeEvent.recordExists cfgDemo.AirtablePartialTable (HashString dataAda.Phone)])
    ∧ countCreateCalls (processSubmission envHappy cfgDemo dataAda
        (processSubmission envHappy cfgDemo dataAda ⟨[]⟩).1).2 = 0
    ∧ countScheduleCalls (processSubmission envHappy cfgDemo dataAda
        (processSubmission envHappy cfgDemo dataAda ⟨[]⟩).1).2 = 0) :=
  C5_duplicate_submission_single_write envHappy cfgDemo dataAda ⟨[]⟩ "123" 123
    rfl rfl rfl rfl rfl rfl rfl

/-! ## Claim C7: the submission webhook handler -/

/-- Outcome of reading and JSON-unmarshalling the request body, the two
failure branches the handlers distinguish before field validation. -/
inductive BodyOutcome where
  | readFailed
  | invalidJSON
  | parsed (d : LandingFormData)
deriving DecidableEq

/-- A handler's observable effect: HTTP status, JSON body fields, and the
submission handed to the asynchronous pipeline, if any. -/
structure HandlerResult where
  status : Nat
  body : List (String × String)
  pipelineCall : Option LandingFormData
deriving DecidableEq

/-- Embeds `HandleLandingSubmission` (part_005 lines 35–70): 400 on body read
error or bad JSON, 400 "Missing required fields" when any of the three fields
is empty, otherwise 200 and the submission is handed to the pipeline. -/
def HandleLandingSubmission (b : BodyOutcome) : HandlerResult :=
  match b with
  | BodyOutcome.readFailed => ⟨400, [("error", "Error reading request")], none⟩
  | BodyOutcome.invalidJSON => ⟨400, [("error", "Invalid JSON format")], none⟩
  | BodyOutcome.parsed d =>
    if d.First = "" ∨ d.Last = "" ∨ d.Phone = "" then
      ⟨400, [("error", "Missing required fields")], none⟩
    else
      ⟨200, [("status", "success"), ("message", "Form submission received and processing")],
       some d⟩

/-- Embeds `handleFramerSubmission` (part_000 lines 580–616), textually
identical validation logic over the field-identical `RawFormData`. -/
def handleFramerSubmission (b : BodyOutcome) : HandlerResult :=
  match b with
  | BodyOutcome.readFailed => ⟨400, [("error", "Error reading request")], none⟩
  | BodyOutcome.invalidJSON => ⟨400, [("error", "Invalid JSON format")], none⟩
  | BodyOutcome.parsed d =>
    if d.First = "" ∨ d.Last = "" ∨ d.Phone = "" then
      ⟨400, [("error", "Missing required fields")], none⟩
    else
      ⟨200, [("status", "success"), ("message", "Form submission received and processing")],
       some d⟩

/-- Claim C7: a valid-JSON body with any of the three fields empty gets a 400
"Missing required fields" response and the pipeline is never invoked (no
facade call can occur); a malformed body gets 400 "Invalid JSON format" with
no pipeline invocation. Both handler revisions. -/
theorem C7_handler_rejects_incomplete (d : LandingFormData)
    (h : d.First = "" ∨ d.Last = "" ∨ d.Phone = "") :
    HandleLandingSubmission (BodyOutcome.parsed d)
      = ⟨400, [("error", "Missing required fields")], none⟩
    ∧ handleFramerSubmission (BodyOutcome.parsed d)
      = ⟨400, [("error", "Missing required fields")], none⟩
    ∧ HandleLandingSubmission BodyOutcome.invalidJSON
      = ⟨400, [("error", "Invalid JSON format")], none⟩
    ∧ handleFramerSubmission BodyOutcome.invalidJSON
      = ⟨400, [("error", "Invalid JSON format")], none⟩ := by
  refine ⟨?_, ?_, rfl, rfl⟩ <;>
    simp [HandleLandingSubmission, handleFramerSubmission, h]

/-- Witness for C7: the specification's missing-field scenario
`{first: "Ada", last: "", phone: "802-555-0100"}`. -/
theorem C7_handler_rejects_incomplete_witness :
    (HandleLandingSubmission (BodyOutcome.parsed ⟨"Ada", "", "802-555-0100"⟩)
      = ⟨400, [("error", "Missing required fields")], none⟩
    ∧ handleFramerSubmission (BodyOutcome.parsed ⟨"Ada", "", "802-555-0100"⟩)
      = ⟨400, [("error", "Missing required fields")], none⟩
    ∧ HandleLandingSubmission BodyOutcome.invalidJSON
      = ⟨400, [("error", "Invalid JSON format")], none⟩
    ∧ handleFramerSubmission BodyOutcome.invalidJSON
      = ⟨400, [("error", "Invalid JSON format")], none⟩) :=
  C7_handler_rejects_incomplete ⟨"Ada", "", "802-555-0100"⟩ (Or.inr (Or.inl rfl))

/-! ## OTP variant: /send-otp rate limiting (src/main.go lines 63–104) -/

/-- Nanoseconds per second (Go `time.Duration` granularity). -/
def nsPerSec : Nat := 1000000000

/-- The 3-minute resend cooldown, in nanoseconds (`3 * time.Minute`). -/
def cooldownNs : Nat := 180000000000

/-- Observable effect of one `/send-otp` request: HTTP status, the
`retryAfter` field when present (seconds), whether the Twilio verification
call was attempted, and the rate-limit map afterwards. -/
structure SendOtpResult where
  status : Nat
  retryAfter : Option Nat
  twilioCalled : Bool
  limits : List (String × Nat)
deriving DecidableEq

/-- Map update `phoneRateLimits[phone] = now`. -/
def setLimit (limits : List (String × Nat)) (phone : String) (t : Nat) :
    List (String × Nat) :=
  (phone, t) :: limits.filter (fun kv => kv.1 != phone)

/-- The non-rate-limited path: record the timestamp first, then call the
provider; 500 on provider error, 200 on success. -/
def sendOtpProceed (limits : List (String × Nat)) (now : Nat) (phone : String)
    (twilioResult : Except String String) : SendOtpResult :=
  let limits2 := setLimit limits phone now
  match twilioResult with
  | Except.error _ => ⟨500, none, true, limits2⟩
  | Except.ok _ => ⟨200, none, true, limits2⟩

/-- Embeds the `/send-otp` handler body (src/main.go lines 63–104), given the
parsed phone, the current time in nanoseconds, and the provider's reply:
400 on empty phone; 429 with `retryAfter` seconds when the previously
recorded request is less than 3 minutes old; otherwise record the timestamp
and call the provider. -/
def sendOtpHandler (limits : List (String × Nat)) (now : Nat) (phone : String)
    (twilioResult : Except String String) : SendOtpResult :=
  if phone = "" then ⟨400, none, false, limits⟩
  else
    match List.lookup phone limits with
    | some lastRequest =>
      if now - lastRequest < cooldownNs then
        ⟨429, some ((cooldownNs - (now - lastRequest)) / nsPerSec), false, limits⟩
      else sendOtpProceed limits now phone twilioResult
    | none => sendOtpProceed limits now phone twilioResult

/-- Claim C8: a `/send-otp` request arriving less than 3 minutes after the
previously recorded request for the same phone is rejected with 429, its
`retryAfter` field is the whole number of seconds remaining in the cooldown
(floor characterization), no verification is attempted, and the rate-limit
map is unchanged. -/
theorem C8_send_otp_cooldown (limits : List (String × Nat)) (now last : Nat)
    (phone : String) (tw : Except String String)
    (hphone : phone ≠ "")
    (hlook : List.lookup phone limits = some last)
    (hle : last ≤ now) (hlt : now - last < cooldownNs) :
    sendOtpHandler limits now phone tw
      = ⟨429, some ((cooldownNs - (now - last)) / nsPerSec), false, limits⟩
    ∧ ∃ r, (sendOtpHandler limits now phone tw).retryAfter = some r
        ∧ r * nsPerSec ≤ cooldownNs - (now - last)
        ∧ cooldownNs - (now - last) < (r + 1) * nsPerSec
        ∧ r ≤ 180 := by
  have heq : sendOtpHandler limits now phone tw
      = ⟨429, some ((cooldownNs - (now - last)) / nsPerSec), false, limits⟩ := by
    unfold sendOtpHandler
    simp [hphone, hlook, hlt]
  refine ⟨heq, (cooldownNs - (now - last)) / nsPerSec, by rw [heq], ?_, ?_, ?_⟩
  · simp only [nsPerSec]
    omega
  · simp only [nsPerSec]
    omega
  · simp only [nsPerSec, cooldownNs] at hlt ⊢
    omega

/-- Witness for C8: a retry one minute after the recorded request gets 429
with 120 seconds remaining. -/
theorem C8_send_otp_cooldown_witness :
    (sendOtpHandler [("8025550100", 0)] 60000000000 "8025550100" (Except.ok "sid")
      = ⟨429, some ((cooldownNs - (60000000000 - 0)) / nsPerSec), false, [("8025550100", 0)]⟩
    ∧ ∃ r, (sendOtpHandler [("8025550100", 0)] 60000000000 "8025550100"
          (Except.ok "sid")).retryAfter = some r
        ∧ r * nsPerSec ≤ cooldownNs - (60000000000 - 0)
        ∧ cooldownNs - (60000000000 - 0) < (r + 1) * nsPerSec
        ∧ r ≤ 180) :=
  C8_send_otp_cooldown [("8025550100", 0)] 60000000000 0 "8025550100" (Except.ok "sid")
    (by decide) rfl (by omega) (by simp [cooldownNs])

/-- Claim C10: the handler records the rate-limit timestamp before calling
the provider, so a request whose provider call fails (500 response) still
starts the 3-minute cooldown: an immediate retry for the same phone is
rejected with 429 even though no code was sent. -/
theorem C10_cooldown_survives_provider_failure (limits : List (String × Nat))
    (now now2 : Nat) (phone e : String) (tw2 : Except String String)
    (hphone : phone ≠ "")
    (hlook : List.lookup phone limits = none)
    (h12 : now ≤ now2) (hsoon : now2 - now < cooldownNs) :
    sendOtpHandler limits now phone (Except.error e)
      = ⟨500, none, true, setLimit limits phone now⟩
    ∧ List.lookup phone (sendOtpHandler limits now phone (Except.error e)).limits = some now
    ∧ sendOtpHandler (sendOtpHandler limits now phone (Except.error e)).limits now2 phone tw2
      = ⟨429, some ((cooldownNs - (now2 - now)) / nsPerSec), false,
          (sendOtpHandler limits now phone (Except.error e)).limits⟩ := by
  have h1 : sendOtpHandler limits now phone (Except.error e)
      = ⟨500, none, true, setLimit limits phone now⟩ := by
    unfold sendOtpHandler sendOtpProceed
    simp [hphone, hlook]
  have h2 : List.lookup phone (setLimit limits phone now) = some now := by
    simp [setLimit]
  refine ⟨h1, by rw [h1]; exact h2, ?_⟩
  rw [h1]
  unfold sendOtpHandler
  simp [hphone, h2, hsoon]

/-- Witness for C10: first request fails at the provider, the immediate
retry two seconds later is rate limited. -/
theorem C10_cooldown_survives_provider_failure_witness :
    (sendOtpHandler [] 1000000000 "8025550100" (Except.error "down")
      = ⟨500, none, true, setLimit [] "8025550100" 1000000000⟩
    ∧ List.lookup "8025550100"
        (sendOtpHandler [] 1000000000 "8025550100" (Except.error "down")).limits
      = some 1000000000
    ∧ sendOtpHandler (sendOtpHandler [] 1000000000 "8025550100" (Except.error "down")).limits
        3000000000 "8025550100" (Except.ok "sid")
      = ⟨429, some ((cooldownNs - (3000000000 - 1000000000)) / nsPerSec), false,
          (sendOtpHandler [] 1000000000 "8025550100" (Except.error "down")).limits⟩) :=
  C10_cooldown_survives_provider_failure [] 1000000000 3000000000 "8025550100" "down"
    (Except.ok "sid") (by decide) rfl (by omega) (by simp [cooldownNs])

/-! ## Claim C9: VerifyCode (src/pkg/services/verification.go lines 37–92) -/

/-- A pending verification entry: phone, caller data, absolute expiry time
(`InitiateVerification` stores `now + timeout`). -/
structure PendingVerification (α : Type) where
  Phone : String
  Data : α
  ExpiresAt : Nat
deriving DecidableEq

/-- The three error outcomes of `VerifyCode`: the two sentinel errors and a
propagated provider error. -/
inductive VerifyErr where
  | verificationExpired
  | invalidCode
  | provider (e : String)
deriving DecidableEq

/-- Go `delete(s.pending, phone)`. -/
def erasePending {α : Type} (m : List (String × PendingVerification α)) (phone : String) :
    List (String × PendingVerification α) :=
  m.filter (fun kv => kv.1 != phone)

/-- Embeds `VerifyCode`: missing entry → ErrVerificationExpired with the map
unchanged; expired entry → delete and ErrVerificationExpired; provider error
→ propagate, map unchanged; provider says invalid → ErrInvalidCode, map
unchanged; provider says valid → delete the entry and return its Data. -/
def VerifyCode {α : Type} (m : List (String × PendingVerification α)) (now : Nat)
    (phone : String) (checkResult : Except String Bool) :
    Except VerifyErr α × List (String × PendingVerification α) :=
  match List.lookup phone m with
  | none => (Except.error VerifyErr.verificationExpired, m)
  | some v =>
    if v.ExpiresAt < now then
      (Except.error VerifyErr.verificationExpired, erasePending m phone)
    else
      match checkResult with
      | Except.error e => (Except.error (VerifyErr.provider e), m)
      | Except.ok verified =>
        if verified then (Except.ok v.Data, erasePending m phone)
        else (Except.error VerifyErr.invalidCode, m)

/-- Claim C9: for a pending, unexpired entry, an invalid-code reply returns
ErrInvalidCode with the pending map unchanged (the entry remains, so the
caller may retry); the entry is deleted exactly when VerifyCode detects
expiry or succeeds; on success the stored Data is returned (one-time
consumption). Provider errors and missing entries also leave the map
unchanged. -/
theorem C9_verify_code_one_time_consumption (α : Type)
    (m : List (String × PendingVerification α)) (now : Nat) (phone : String)
    (v : PendingVerification α) (chk : Except String Bool) :
    (List.lookup phone m = none →
      VerifyCode m now phone chk = (Except.error VerifyErr.verificationExpired, m))
    ∧ (List.lookup phone m = some v → v.ExpiresAt < now →
      VerifyCode m now phone chk
        = (Except.error VerifyErr.verificationExpired, erasePending m phone))
    ∧ (List.lookup phone m = some v → now ≤ v.ExpiresAt →
      (∀ e, chk = Except.error e →
        VerifyCode m now phone chk = (Except.error (VerifyErr.provider e), m))
      ∧ (chk = Except.ok false →
        VerifyCode m now phone chk = (Except.error VerifyErr.invalidCode, m))
      ∧ (chk = Except.ok true →
        VerifyCode m now phone chk = (Except.ok v.Data, erasePending m phone))) := by
  refine ⟨?_, ?_, ?_⟩
  · intro hl
    unfold VerifyCode
    simp [hl]
  · intro hl hexp
    unfold VerifyCode
    simp [hl, hexp]
  · intro hl hexp
    have hnotlt : ¬ v.ExpiresAt < now := by omega
    refine ⟨?_, ?_, ?_⟩
    · intro e he
      subst he
      unfold VerifyCode
      simp [hl, hnotlt]
    · intro he
      subst he
      unfold VerifyCode
      simp [hl, hnotlt]
    · intro he
      subst he
      unfold VerifyCode
      simp [hl, hnotlt]

/-- A concrete one-entry pending map for the C9 witness. -/
def pendingOne : List (String × PendingVerification Nat) := [("8025550100", ⟨"8025550100", 42, 100⟩)]

/-- Witness for C9 at a concrete pending map: invalid code leaves the entry,
success consumes it and returns the data, and an expired call deletes it. -/
theorem C9_verify_code_one_time_consumption_witness :
    (VerifyCode pendingOne 50 "8025550100" (Except.ok false)
      = (Except.error VerifyErr.invalidCode, pendingOne)
    ∧ VerifyCode pendingOne 50 "8025550100" (Except.ok true)
      = (Except.ok 42, erasePending pendingOne "8025550100")
    ∧ VerifyCode pendingOne 200 "8025550100" (Except.ok false)
      = (Except.error VerifyErr.verificationExpired, erasePending pendingOne "8025550100")) :=
  ⟨((C9_verify_code_one_time_consumption Nat pendingOne 50 "8025550100"
      ⟨"8025550100", 42, 100⟩ (Except.ok false)).2.2 rfl (by decide)).2.1 rfl,
   ((C9_verify_code_one_time_consumption Nat pendingOne 50 "8025550100"
      ⟨"8025550100", 42, 100⟩ (Except.ok true)).2.2 rfl (by decide)).2.2 rfl,
   (C9_verify_code_one_time_consumption Nat pendingOne 200 "8025550100"
      ⟨"8025550100", 42, 100⟩ (Except.ok false)).2.1 rfl (by decide)⟩
